import Mathlib

/-!
Shallow embedding of `src/mymkfs.c` (the HUST_fs format tool) and proofs about
its layout computation, bitmap initialization and write sequence.

Machine integers: every on-disk counter in the C source is a `uint64_t`.  All
quantities computed by `init_disk` are tiny except `free_blocks`, whose
computation `blocks_count - data_block_number - 1` can wrap; wrap-around is
modelled explicitly by `sub64`.  Byte values are `Nat`s below 256.
-/

/-- Modelled from the spec: `HUST_BLOCKSIZE` comes from `constants.h`, which is
absent from the sources; the spec fixes the block size at 4096 bytes (and the
worked example uses 4096). -/
def HUST_BLOCKSIZE : Nat := 4096

/-- Modelled from the spec: `RESERVE_BLOCKS` comes from the absent
`constants.h`; the spec defines `reserved_leading_blocks` as the dummy block
plus the superblock block, i.e. 2 (consistent with the worked example
`data_block_number = 10 = 2 + 1 + 1 + 6`). -/
def RESERVE_BLOCKS : Nat := 2

/-- Modelled from the spec: `sizeof(struct HUST_inode)` = 264 per the spec's
"inode record size 264" (consistent with the C layout once
`HUST_N_BLOCKS = 10`, since 184 + 8·10 = 264). -/
def HUST_INODE_SIZE : Nat := 264

/-- Modelled from the spec: `HUST_N_BLOCKS` comes from the absent
`constants.h`; the value 10 is forced by the record size 264. -/
def HUST_N_BLOCKS : Nat := 10

/-- Modelled from the spec: the filesystem's fixed root inode number.  The
inode bitmap marks exactly slots 0 and 1 and the initial file has inode
number 1, so the root inode number is 0. -/
def HUST_ROOT_INODE_NUM : Nat := 0

/-- Modelled from the spec: the magic constant identifying the format; its
numeric value lives in the absent `constants.h` and no claim depends on it,
so a placeholder value is used. -/
def MAGIC_NUM : Nat := 0

/-- Linux `S_IFDIR` (directory mode bit), from `<linux/stat.h>`. -/
def S_IFDIR : Nat := 16384

/-- Linux `S_IFREG` (regular-file mode bit), from `<linux/stat.h>`. -/
def S_IFREG : Nat := 32768

/-- Unsigned 64-bit subtraction with wrap-around, as performed on the
`uint64_t` fields of the C superblock. -/
def sub64 (a b : Nat) : Nat := (a % 2 ^ 64 + (2 ^ 64 - b % 2 ^ 64)) % 2 ^ 64

/-- `struct HUST_fs_super_block` from `src/mymkfs.c` (the 4016 bytes of
trailing padding carry no information and are not modelled as a field; the
struct's total size, 4096 bytes, appears in the write model). -/
structure HUST_fs_super_block where
  version : Nat
  magic : Nat
  block_size : Nat
  inodes_count : Nat
  free_blocks : Nat
  blocks_count : Nat
  bmap_block : Nat
  imap_block : Nat
  inode_table_block : Nat
  data_block_number : Nat

/-- The geometry state produced by `init_disk`: the global `super_block`
together with the global size variables `bmap_size`, `imap_size` and
`inode_table_size` of `src/mymkfs.c`. -/
structure Geometry where
  sb : HUST_fs_super_block
  bmap_size : Nat
  imap_size : Nat
  inode_table_size : Nat

/-- The geometry computation of `init_disk` (`src/mymkfs.c:136-191`),
line by line:
`blocks_count = disk_size/HUST_BLOCKSIZE`; `inodes_count = blocks_count`;
`bmap_size = blocks_count/(8*HUST_BLOCKSIZE)` plus 1 when the division has a
remainder; likewise `imap_size` from `inodes_count`;
`inode_table_size = inodes_count/(HUST_BLOCKSIZE/HUST_INODE_SIZE)` (both
divisions are C integer divisions);
`bmap_block = RESERVE_BLOCKS`, `imap_block = bmap_block + bmap_size`,
`inode_table_block = imap_block + imap_size`,
`data_block_number = RESERVE_BLOCKS + bmap_size + imap_size +
inode_table_size`, and
`free_blocks = blocks_count - data_block_number - 1` in `uint64_t`
arithmetic. -/
def init_geometry (S : Nat) : Geometry :=
  let blocks_count := S / HUST_BLOCKSIZE
  let inodes_count := blocks_count
  let bmap_size0 := blocks_count / (8 * HUST_BLOCKSIZE)
  let bmap_block := RESERVE_BLOCKS
  let bmap_size := if blocks_count % (8 * HUST_BLOCKSIZE) ≠ 0 then bmap_size0 + 1 else bmap_size0
  let imap_size0 := inodes_count / (8 * HUST_BLOCKSIZE)
  let imap_block := bmap_block + bmap_size
  let imap_size := if inodes_count % (8 * HUST_BLOCKSIZE) ≠ 0 then imap_size0 + 1 else imap_size0
  let inode_table_size := inodes_count / (HUST_BLOCKSIZE / HUST_INODE_SIZE)
  let inode_table_block := imap_block + imap_size
  let data_block_number := RESERVE_BLOCKS + bmap_size + imap_size + inode_table_size
  let free_blocks := sub64 (sub64 blocks_count data_block_number) 1
  { sb :=
      { version := 1
        magic := MAGIC_NUM
        block_size := HUST_BLOCKSIZE
        inodes_count := inodes_count
        free_blocks := free_blocks
        blocks_count := blocks_count
        bmap_block := bmap_block
        imap_block := imap_block
        inode_table_block := inode_table_block
        data_block_number := data_block_number }
    bmap_size := bmap_size
    imap_size := imap_size
    inode_table_size := inode_table_size }

/-- A malloc'd byte buffer, as byte index ↦ byte value. -/
def Buf : Type := Nat → Nat

/-- The zero-filled buffer produced by `memset(·, 0, ·)`. -/
def zeroBuf : Buf := fun _ => 0

/-- Bit `i` of a byte buffer under the C packing: bit `i % 8` of byte
`i / 8`. -/
def testBuf (buf : Buf) (i : Nat) : Bool := (buf (i / 8)).testBit (i % 8)

/-- `set_bmap` from `src/mymkfs.c:104-120` (on an allocated buffer, so the
NULL check is vacuous): `array_idx = idx/8`, `off = idx%8`; the guard fails
(returns -1, modelled as `none`) when `array_idx > bmap_size*HUST_BLOCKSIZE`
— note this compares the BYTE index against the BYTE capacity with a strict
`>`, exactly as the C does; otherwise byte `array_idx` is or-ed with
`1 << off` (or and-ed with its 8-bit complement when clearing).  When
`array_idx` equals `bmap_size*HUST_BLOCKSIZE` the C write is one byte past
the malloc'd buffer (undefined behaviour); the model simply records the
update at that index. -/
def set_bmap (bmap_size : Nat) (bmap : Buf) (idx : Nat) (value : Bool) : Option Buf :=
  let array_idx := idx / 8
  let off := idx % 8
  if array_idx > bmap_size * HUST_BLOCKSIZE then none
  else some (fun k =>
    if k = array_idx then
      if value then bmap array_idx ||| (1 <<< off)
      else bmap array_idx &&& (255 ^^^ (1 <<< off))
    else bmap k)

/-- The buffer update performed by a successful `set_bmap(idx, 1)` call:
byte `idx/8` or-ed with `1 << (idx%8)`. -/
def updBit (buf : Buf) (idx : Nat) : Buf :=
  fun k => if k = idx / 8 then buf (idx / 8) ||| (1 <<< (idx % 8)) else buf k

/-- The bitmap-filling loop of `init_disk` (`src/mymkfs.c:194-200`): set the
listed bit indices in order, aborting with -1 on the first `set_bmap`
failure. -/
def bmapFill (bmap_size : Nat) : List Nat → Buf → Int × Buf
  | [], buf => (0, buf)
  | i :: rest, buf =>
    match set_bmap bmap_size buf i true with
    | none => (-1, buf)
    | some b => bmapFill bmap_size rest b

/-- `set_imap` from `src/mymkfs.c:122-126`: `imap[0] |= 0x3`. -/
def set_imap (imap : Buf) : Buf := fun k => if k = 0 then imap 0 ||| 3 else imap k

/-- The global state populated by `init_disk`: the geometry plus the two
bitmap buffers. -/
structure DiskState where
  geo : Geometry
  bmap : Buf
  imap : Buf

/-- `init_disk` from `src/mymkfs.c:128-206`, given that the device-size query
succeeded with size `S`: compute the geometry, zero both bitmap buffers, set
block bits `0 .. data_block_number` (returning -1 if any `set_bmap` call
fails, in which case `set_imap` never runs), then set inode bits 0 and 1.
There is no device-size check of any kind. -/
def init_disk (S : Nat) : Int × DiskState :=
  let geo := init_geometry S
  let fill := bmapFill geo.bmap_size (List.range (geo.sb.data_block_number + 1)) zeroBuf
  if fill.1 ≠ 0 then (-1, ⟨geo, fill.2, zeroBuf⟩)
  else (0, ⟨geo, fill.2, set_imap zeroBuf⟩)

/-- `struct HUST_inode` from `src/mymkfs.c:60-77`; the anonymous union is the
single field `size_or_children`, the direct-block array is a function on
indices `0 .. HUST_N_BLOCKS - 1`, and the 112 padding bytes are not
modelled. -/
structure HUST_inode where
  mode : Nat
  inode_no : Nat
  blocks : Nat
  block : Nat → Nat
  size_or_children : Nat
  i_uid : Nat
  i_gid : Nat
  i_nlink : Nat
  i_atime : Int
  i_mtime : Int
  i_ctime : Int

/-- The root-directory inode built in `write_itable`
(`src/mymkfs.c:273-282`).  Only `block[0]` is assigned by the C code; the
remaining direct-block slots stay uninitialized and are modelled by the
`junk` parameter. -/
def root_dir_inode (dbn uid gid : Nat) (now : Int) (junk : Nat → Nat) : HUST_inode :=
  { mode := S_IFDIR
    inode_no := HUST_ROOT_INODE_NUM
    blocks := 1
    block := fun k => if k = 0 then dbn else junk k
    size_or_children := 3
    i_uid := uid
    i_gid := gid
    i_nlink := 2
    i_atime := now
    i_mtime := now
    i_ctime := now }

/-- The initial-file inode built in `write_itable` (`src/mymkfs.c:294-303`);
`block[0] = 0`, `file_size = 0`, remaining direct-block slots
uninitialized. -/
def onefile_inode (uid gid : Nat) (now : Int) (junk : Nat → Nat) : HUST_inode :=
  { mode := S_IFREG
    inode_no := 1
    blocks := 0
    block := fun k => if k = 0 then 0 else junk k
    size_or_children := 0
    i_uid := uid
    i_gid := gid
    i_nlink := 1
    i_atime := now
    i_mtime := now
    i_ctime := now }

/-- `struct HUST_dir_record` from `src/mymkfs.c:83-87`: a filename (a C
string inside a `HUST_FILENAME_MAX_LEN` byte array) and an inode number. -/
structure HUST_dir_record where
  filename : String
  inode_no : Nat

/-- What a single `write(2)` call carried, for the write-trace model. -/
inductive WData where
  | zeros
  | sbData (sb : HUST_fs_super_block)
  | bmapData
  | imapData
  | inodeData (ino : HUST_inode)
  | dirData (d : HUST_dir_record)

/-- One `write(2)` call: file offset at which it was issued, requested byte
count, byte count the device accepted, and the payload. -/
structure WEvent where
  off : Nat
  req : Nat
  written : Nat
  data : WData

/-- The state of the open file descriptor: current offset, number of write
calls issued so far, and the trace of issued writes. -/
structure WState where
  pos : Nat
  calls : Nat
  trace : List WEvent

/-- Device behaviour: `env n req` is how many bytes the device accepts for
the `n`-th write call requesting `req` bytes (capped at `req`); fewer than
`req` models a short write or I/O error. -/
def WEnv : Type := Nat → Nat → Nat

/-- The fault-free device: every write is accepted in full. -/
def envOK : WEnv := fun _ req => req

/-- A device whose very first write call fails (accepts 0 bytes) while all
later calls succeed. -/
def envFail0 : WEnv := fun n req => if n = 0 then 0 else req

/-- One `write(2)` call: append the event, advance the offset by the bytes
accepted, and return that count (the C `ssize_t` result). -/
def wwrite (env : WEnv) (req : Nat) (d : WData) (s : WState) : Nat × WState :=
  let w := min (env s.calls req) req
  (w, ⟨s.pos + w, s.calls + 1, s.trace ++ [⟨s.pos, req, w, d⟩]⟩)

/-- `write_dummy` from `src/mymkfs.c:209-218`: one block of zeros; -1 unless
all `HUST_BLOCKSIZE` bytes were written. -/
def write_dummy (env : WEnv) (s : WState) : Int × WState :=
  let r := wwrite env HUST_BLOCKSIZE WData.zeros s
  (if r.1 ≠ HUST_BLOCKSIZE then -1 else 0, r.2)

/-- `write_sb` from `src/mymkfs.c:221-231`: `sizeof(super_block)` = 4096
bytes; -1 unless the result equals `HUST_BLOCKSIZE`. -/
def write_sb (env : WEnv) (sb : HUST_fs_super_block) (s : WState) : Int × WState :=
  let r := wwrite env HUST_BLOCKSIZE (WData.sbData sb) s
  (if r.1 ≠ HUST_BLOCKSIZE then -1 else 0, r.2)

/-- `write_bmap` from `src/mymkfs.c:234-245`: `bmap_size*HUST_BLOCKSIZE`
bytes. -/
def write_bmap (env : WEnv) (bmap_size : Nat) (s : WState) : Int × WState :=
  let r := wwrite env (bmap_size * HUST_BLOCKSIZE) WData.bmapData s
  (if r.1 ≠ bmap_size * HUST_BLOCKSIZE then -1 else 0, r.2)

/-- `write_imap` from `src/mymkfs.c:248-256`: `imap_size*HUST_BLOCKSIZE`
bytes. -/
def write_imap (env : WEnv) (imap_size : Nat) (s : WState) : Int × WState :=
  let r := wwrite env (imap_size * HUST_BLOCKSIZE) WData.imapData s
  (if r.1 ≠ imap_size * HUST_BLOCKSIZE then -1 else 0, r.2)

/-- `write_itable` from `src/mymkfs.c:262-349`: write the root inode record
(abort on short write), write the file inode record (abort on short write),
`lseek` to `data_block_number*HUST_BLOCKSIZE` (which succeeds on a regular
device), then write the three directory records `"."`, `".."`, `"file"`.
Exactly as in the C code, only the THIRD directory-record write's result is
checked; the first two results are overwritten and never examined.  `flen`
is `HUST_FILENAME_MAX_LEN` from the absent `constants.h`, so
`sizeof(struct HUST_dir_record)` is `flen + 8`. -/
def write_itable (env : WEnv) (geo : Geometry) (uid gid : Nat) (now : Int)
    (flen : Nat) (junkR junkF : Nat → Nat) (s : WState) : Int × WState :=
  let r1 := wwrite env HUST_INODE_SIZE
    (WData.inodeData (root_dir_inode geo.sb.data_block_number uid gid now junkR)) s
  if r1.1 ≠ HUST_INODE_SIZE then (-1, r1.2) else
  let r2 := wwrite env HUST_INODE_SIZE (WData.inodeData (onefile_inode uid gid now junkF)) r1.2
  if r2.1 ≠ HUST_INODE_SIZE then (-1, r2.2) else
  let s3 : WState := ⟨geo.sb.data_block_number * HUST_BLOCKSIZE, r2.2.calls, r2.2.trace⟩
  let r3 := wwrite env (flen + 8) (WData.dirData ⟨".", HUST_ROOT_INODE_NUM⟩) s3
  let r4 := wwrite env (flen + 8) (WData.dirData ⟨"..", HUST_ROOT_INODE_NUM⟩) r3.2
  let r5 := wwrite env (flen + 8) (WData.dirData ⟨"file", 1⟩) r4.2
  (if r5.1 ≠ flen + 8 then -1 else 0, r5.2)

/-- `main` from `src/mymkfs.c:352-381`, after a successful `open` of the one
device argument: set `ret = 1`, call `init_disk`, `write_dummy`, `write_sb`,
`write_bmap`, `write_imap`, `write_itable` — IGNORING every one of their
return values, exactly as the C code does — and return `ret`, which is never
updated after its initialization to 1. -/
def mainRun (env : WEnv) (S uid gid : Nat) (now : Int) (flen : Nat)
    (junkR junkF : Nat → Nat) : Int × WState :=
  let st := (init_disk S).2
  let s0 : WState := ⟨0, 0, []⟩
  let s1 := (write_dummy env s0).2
  let s2 := (write_sb env st.geo.sb s1).2
  let s3 := (write_bmap env st.geo.bmap_size s2).2
  let s4 := (write_imap env st.geo.imap_size s3).2
  let s5 := (write_itable env st.geo uid gid now flen junkR junkF s4).2
  (1, s5)

/-- The block-bitmap size formula exactly as the specification words it for
claim C1: `ceil(blocks_count / (8 * block_size))` with minimum 1 (for
comparison against the source's computation; this definition follows the
spec's words, not the source). -/
def bmap_size_spec_min1 (blocks_count : Nat) : Nat :=
  max 1 ((blocks_count + (8 * HUST_BLOCKSIZE - 1)) / (8 * HUST_BLOCKSIZE))

/-- The free-blocks formula exactly as the specification words it for claim
C1, read over the integers: `blocks_count - data_block_number - 1` (this
definition follows the spec's words, not the source). -/
def free_blocks_spec (blocks_count data_block_number : Int) : Int :=
  blocks_count - data_block_number - 1

/-! ## Helper lemmas -/

lemma geo_blocks (S : Nat) : (init_geometry S).sb.blocks_count = S / HUST_BLOCKSIZE := rfl

lemma geo_inodes (S : Nat) : (init_geometry S).sb.inodes_count = S / HUST_BLOCKSIZE := rfl

lemma geo_dbn (S : Nat) :
    (init_geometry S).sb.data_block_number
      = RESERVE_BLOCKS + (init_geometry S).bmap_size + (init_geometry S).imap_size
          + (init_geometry S).inode_table_size := rfl

lemma geo_itable_block (S : Nat) :
    (init_geometry S).sb.inode_table_block
      = RESERVE_BLOCKS + (init_geometry S).bmap_size + (init_geometry S).imap_size := rfl

lemma geo_free (S : Nat) :
    (init_geometry S).sb.free_blocks
      = sub64 (sub64 (init_geometry S).sb.blocks_count (init_geometry S).sb.data_block_number) 1 :=
  rfl

lemma sub64_sub64_eq (a b : Nat) (h1 : b + 1 ≤ a) (h2 : a < 2 ^ 64) :
    sub64 (sub64 a b) 1 = a - b - 1 := by
  simp only [sub64]
  omega

/-- `init_disk` stores the same geometry regardless of whether the bitmap
loop succeeded. -/
lemma init_disk_geo (S : Nat) : (init_disk S).2.geo = init_geometry S := by
  unfold init_disk
  dsimp only
  split <;> rfl

/-! ## Claims C1, C2, C4, C5, C10 -/

/-- C1: for every device byte size `S`, `init_disk` computes
`blocks_count = S / B`, `inodes_count = blocks_count`,
`bmap_size = ceil(blocks_count / (8B))` and
`imap_size = ceil(inodes_count / (8B))` — with NO minimum of 1: both are 0
when `blocks_count = 0` —, `inode_table_size = blocks_count / (B / 264)`
(nested integer floor divisions),
`data_block_number = RESERVE_BLOCKS + bmap_size + imap_size +
inode_table_size`, and `free_blocks = blocks_count - data_block_number - 1`
computed in wrap-around 64-bit arithmetic, which coincides with the plain
difference whenever `blocks_count ≥ data_block_number + 1`. -/
theorem C1_geometry (S : Nat) :
    (init_geometry S).sb.blocks_count = S / HUST_BLOCKSIZE ∧
    (init_geometry S).sb.inodes_count = (init_geometry S).sb.blocks_count ∧
    (init_geometry S).bmap_size
      = ((init_geometry S).sb.blocks_count + (8 * HUST_BLOCKSIZE - 1)) / (8 * HUST_BLOCKSIZE) ∧
    (init_geometry S).imap_size
      = ((init_geometry S).sb.inodes_count + (8 * HUST_BLOCKSIZE - 1)) / (8 * HUST_BLOCKSIZE) ∧
    (init_geometry S).inode_table_size
      = (init_geometry S).sb.inodes_count / (HUST_BLOCKSIZE / HUST_INODE_SIZE) ∧
    (init_geometry S).sb.data_block_number
      = RESERVE_BLOCKS + (init_geometry S).bmap_size + (init_geometry S).imap_size
          + (init_geometry S).inode_table_size ∧
    (init_geometry S).sb.free_blocks
      = sub64 (sub64 (init_geometry S).sb.blocks_count (init_geometry S).sb.data_block_number) 1 ∧
    (S < 2 ^ 64 →
      (init_geometry S).sb.data_block_number + 1 ≤ (init_geometry S).sb.blocks_count →
      (init_geometry S).sb.free_blocks
        = (init_geometry S).sb.blocks_count - (init_geometry S).sb.data_block_number - 1) := by
  refine ⟨rfl, rfl, ?_, ?_, rfl, rfl, rfl, ?_⟩
  · show (if S / 4096 % 32768 ≠ 0 then S / 4096 / 32768 + 1 else S / 4096 / 32768)
        = (S / 4096 + 32767) / 32768
    split_ifs with h <;> omega
  · show (if S / 4096 % 32768 ≠ 0 then S / 4096 / 32768 + 1 else S / 4096 / 32768)
        = (S / 4096 + 32767) / 32768
    split_ifs with h <;> omega
  · intro hS hmin
    rw [geo_free]
    exact sub64_sub64_eq _ _ hmin (lt_of_le_of_lt (Nat.div_le_self _ _) hS)

/-- Witness for C1 at `S = 409600`: the minimum-size premises hold and the
free-block count equals the plain difference. -/
theorem C1_geometry_witness :
    (init_geometry 409600).sb.free_blocks
      = (init_geometry 409600).sb.blocks_count - (init_geometry 409600).sb.data_block_number - 1 :=
  (C1_geometry 409600).2.2.2.2.2.2.2 (by norm_num) (by decide)

/-- Counterexample to C1 as stated: at `S = 100` the computed `bmap_size` is
0, while the claim's formula (ceil with minimum 1) yields 1; likewise the
claimed integer-valued `free_blocks = blocks_count - data_block_number - 1`
(which would be -3) differs from the stored wrap-around value. -/
theorem C1_cex :
    (init_geometry 100).bmap_size = 0 ∧
    bmap_size_spec_min1 ((init_geometry 100).sb.blocks_count) = 1 ∧
    ((init_geometry 100).sb.free_blocks : Int)
      ≠ free_blocks_spec ((init_geometry 100).sb.blocks_count : Int)
          ((init_geometry 100).sb.data_block_number : Int) := by
  refine ⟨by decide, by decide, by decide⟩

/-- C2: on a 409600-byte device, `init_disk` computes `blocks_count = 100`,
`bmap_size = 1`, `imap_size = 1`, `inode_table_size = 6`,
`data_block_number = 10` and `free_blocks = 89`. -/
theorem C2_concrete_geometry :
    (init_geometry 409600).sb.blocks_count = 100 ∧
    (init_geometry 409600).bmap_size = 1 ∧
    (init_geometry 409600).imap_size = 1 ∧
    (init_geometry 409600).inode_table_size = 6 ∧
    (init_geometry 409600).sb.data_block_number = 10 ∧
    (init_geometry 409600).sb.free_blocks = 89 := by
  refine ⟨rfl, rfl, rfl, rfl, rfl, by decide⟩

/-- Counterexample to C4 as stated: one block below the minimum size
(`S = 16384`, 4 blocks, where `data_block_number + 1 = 5 > 4`), `init_disk`
still returns 0 (success) — there is no device-too-small check — and the
run issues all 9 writes to the device. -/
theorem C4_cex :
    (init_disk 16384).1 = 0 ∧
    (init_geometry 16384).sb.blocks_count + 1
      = (init_geometry 16384).sb.data_block_number + 1 ∧
    (mainRun envOK 16384 0 0 0 256 (fun _ => 0) (fun _ => 0)).2.trace.length = 9 := by
  refine ⟨rfl, by decide, rfl⟩

/-- C4 amended: there is no device-too-small error anywhere.  At exactly the
minimum size (`S = 20480`, 5 blocks) the run succeeds with
`free_blocks = 0`; one block smaller (`S = 16384`) the run ALSO succeeds,
with `free_blocks` wrapping around to `2^64 - 1`, and every one of the 9
writes is still issued to the device. -/
theorem C4_amended :
    (init_disk 20480).1 = 0 ∧
    (init_geometry 20480).sb.free_blocks = 0 ∧
    (init_disk 16384).1 = 0 ∧
    (init_geometry 16384).sb.free_blocks = 2 ^ 64 - 1 ∧
    (mainRun envOK 16384 0 0 0 256 (fun _ => 0) (fun _ => 0)).2.trace.length = 9 := by
  refine ⟨rfl, by decide, rfl, by decide, rfl⟩

/-- C5, evaluated at the failing input: with `bmap_size = 1` the block
bitmap's total bit capacity is `8 * (1 * HUST_BLOCKSIZE) = 32768` bits, and
the claim requires `set_bmap` to fail for every index beyond it; but at
`idx = 32775` the C guard (`idx/8 = 4096 > 4096` is false) passes and
`set_bmap` succeeds — the C code writes `bmap[4096]`, one byte past the
4096-byte buffer.  The code only starts failing at `idx = 32776`. -/
theorem C5_eval_at_failing_input :
    8 * (1 * HUST_BLOCKSIZE) < 32775 ∧
    (set_bmap 1 zeroBuf 32775 true).isSome = true ∧
    (set_bmap 1 zeroBuf 32776 true).isSome = false := by
  refine ⟨by decide, rfl, rfl⟩

/-- C10: `main`'s return variable is initialized to 1 and never updated, so
(for any device behaviour at all, in particular a fully successful format
run) the run's exit status is 1. -/
theorem C10_exit_status (env : WEnv) (S uid gid : Nat) (now : Int) (flen : Nat)
    (junkR junkF : Nat → Nat) :
    (mainRun env S uid gid now flen junkR junkF).1 = 1 := rfl

/-! ## Bitmap lemmas for C3 -/

lemma testBuf_zeroBuf (j : Nat) : testBuf zeroBuf j = false := by
  simp [testBuf, zeroBuf]

lemma set_bmap_true_eq (sz : Nat) (buf : Buf) (idx : Nat)
    (h : idx / 8 ≤ sz * HUST_BLOCKSIZE) :
    set_bmap sz buf idx true = some (updBit buf idx) := by
  unfold set_bmap
  dsimp only
  rw [if_neg (Nat.not_lt.2 h)]
  rfl

lemma testBuf_updBit (buf : Buf) (idx j : Nat) :
    testBuf (updBit buf idx) j = (testBuf buf j || decide (j = idx)) := by
  unfold testBuf updBit
  by_cases hk : j / 8 = idx / 8
  · rw [hk, if_pos rfl, Nat.testBit_or, Nat.one_shiftLeft, Nat.testBit_two_pow]
    have hiff : (idx % 8 = j % 8) ↔ (j = idx) := by omega
    rw [decide_eq_decide.2 hiff]
  · rw [if_neg hk]
    have hne : ¬(j = idx) := fun h => hk (by rw [h])
    simp [hne]

lemma bmapFill_ok (sz : Nat) (l : List Nat) (buf : Buf)
    (hl : ∀ i ∈ l, i / 8 ≤ sz * HUST_BLOCKSIZE) :
    (bmapFill sz l buf).1 = 0 ∧
    ∀ j, testBuf (bmapFill sz l buf).2 j = (testBuf buf j || decide (j ∈ l)) := by
  induction l generalizing buf with
  | nil => simp [bmapFill]
  | cons i rest ih =>
    have hi : i / 8 ≤ sz * HUST_BLOCKSIZE := hl i (by simp)
    have hrest : ∀ x ∈ rest, x / 8 ≤ sz * HUST_BLOCKSIZE := fun x hx => hl x (by simp [hx])
    have heq : bmapFill sz (i :: rest) buf = bmapFill sz rest (updBit buf i) := by
      rw [bmapFill, set_bmap_true_eq sz buf i hi]
    obtain ⟨h1, h2⟩ := ih (updBit buf i) hrest
    refine ⟨by rw [heq]; exact h1, fun j => ?_⟩
    rw [heq, h2 j, testBuf_updBit]
    simp [List.mem_cons, Bool.or_assoc]

lemma countP_range_le (n k : Nat) (hk : k < n) :
    (List.range n).countP (fun j => decide (j ≤ k)) = k + 1 := by
  induction n with
  | zero => omega
  | succ m ih =>
    rw [List.range_succ, List.countP_append]
    by_cases hm : k < m
    · rw [ih hm]
      have : ¬(m ≤ k) := by omega
      simp [List.countP_cons, this]
    · have hkm : k = m := by omega
      have hall : (List.range m).countP (fun j => decide (j ≤ k)) = m := by
        have := (List.countP_eq_length (l := List.range m)
          (p := fun j => decide (j ≤ k))).2
        rw [this, List.length_range]
        intro a ha
        rw [List.mem_range] at ha
        simpa using by omega
      rw [hall]
      simp [List.countP_cons, hkm]

lemma blocks_le_bmap_cap (S : Nat) :
    (init_geometry S).sb.blocks_count ≤ 8 * HUST_BLOCKSIZE * (init_geometry S).bmap_size := by
  show S / 4096 ≤ 8 * 4096 *
    (if S / 4096 % (8 * 4096) ≠ 0 then S / 4096 / (8 * 4096) + 1 else S / 4096 / (8 * 4096))
  split_ifs with h <;> omega

lemma one_le_imap (S : Nat) (h : 1 ≤ (init_geometry S).sb.blocks_count) :
    1 ≤ (init_geometry S).imap_size := by
  revert h
  show 1 ≤ S / 4096 →
    1 ≤ (if S / 4096 % (8 * 4096) ≠ 0 then S / 4096 / (8 * 4096) + 1 else S / 4096 / (8 * 4096))
  intro h
  split_ifs with h2 <;> omega

lemma testBuf_set_imap_zero (j : Nat) : testBuf (set_imap zeroBuf) j = decide (j < 2) := by
  unfold testBuf set_imap zeroBuf
  by_cases h8 : j / 8 = 0
  · rw [if_pos h8]
    have hj : j < 8 := by omega
    interval_cases j <;> decide
  · rw [if_neg h8]
    have : ¬(j < 2) := by omega
    simp [this]

lemma init_disk_of_fill_ok (S : Nat)
    (h : (bmapFill (init_geometry S).bmap_size
      (List.range ((init_geometry S).sb.data_block_number + 1)) zeroBuf).1 = 0) :
    init_disk S = (0, ⟨init_geometry S,
      (bmapFill (init_geometry S).bmap_size
        (List.range ((init_geometry S).sb.data_block_number + 1)) zeroBuf).2,
      set_imap zeroBuf⟩) := by
  unfold init_disk
  dsimp only
  rw [if_neg (by simp [h])]

/-- C3: on a device of at least the minimum size
(`blocks_count ≥ data_block_number + 1`), `init_disk` succeeds and leaves
the block bitmap with exactly bits `0 .. data_block_number` set (so exactly
`data_block_number + 1` set bits) and the inode bitmap with exactly bits 0
and 1 set (so exactly 2 set bits); all other bits of both buffers are
clear. -/
theorem C3_bitmap_invariant (S : Nat)
    (hmin : (init_geometry S).sb.data_block_number + 1 ≤ (init_geometry S).sb.blocks_count) :
    (init_disk S).1 = 0 ∧
    (∀ j < 8 * ((init_geometry S).bmap_size * HUST_BLOCKSIZE),
      testBuf (init_disk S).2.bmap j
        = decide (j ≤ (init_geometry S).sb.data_block_number)) ∧
    (List.range (8 * ((init_geometry S).bmap_size * HUST_BLOCKSIZE))).countP
        (fun j => testBuf (init_disk S).2.bmap j)
      = (init_geometry S).sb.data_block_number + 1 ∧
    (∀ j < 8 * ((init_geometry S).imap_size * HUST_BLOCKSIZE),
      testBuf (init_disk S).2.imap j = decide (j < 2)) ∧
    (List.range (8 * ((init_geometry S).imap_size * HUST_BLOCKSIZE))).countP
        (fun j => testBuf (init_disk S).2.imap j)
      = 2 := by
  have hble := blocks_le_bmap_cap S
  have hB : HUST_BLOCKSIZE = 4096 := rfl
  have hguard : ∀ i ∈ List.range ((init_geometry S).sb.data_block_number + 1),
      i / 8 ≤ (init_geometry S).bmap_size * HUST_BLOCKSIZE := by
    intro i hi
    rw [List.mem_range] at hi
    rw [hB] at hble ⊢
    omega
  obtain ⟨hfill0, hfillbits⟩ :=
    bmapFill_ok (init_geometry S).bmap_size
      (List.range ((init_geometry S).sb.data_block_number + 1)) zeroBuf hguard
  have hid := init_disk_of_fill_ok S hfill0
  have hbm : (init_disk S).2.bmap
      = (bmapFill (init_geometry S).bmap_size
          (List.range ((init_geometry S).sb.data_block_number + 1)) zeroBuf).2 := by
    rw [hid]
  have him : (init_disk S).2.imap = set_imap zeroBuf := by rw [hid]
  have hbit : ∀ j, testBuf (init_disk S).2.bmap j
      = decide (j ≤ (init_geometry S).sb.data_block_number) := by
    intro j
    rw [hbm, hfillbits j, testBuf_zeroBuf]
    simp [List.mem_range, Nat.lt_succ_iff]
  have hdbn_lt : (init_geometry S).sb.data_block_number
      < 8 * ((init_geometry S).bmap_size * HUST_BLOCKSIZE) := by
    rw [hB] at hble ⊢
    omega
  refine ⟨by rw [hid], fun j _ => hbit j, ?_, ?_, ?_⟩
  · rw [List.countP_congr (q := fun j => decide (j ≤ (init_geometry S).sb.data_block_number))
      (fun j _ => by rw [hbit j])]
    exact countP_range_le _ _ hdbn_lt
  · intro j _
    rw [him, testBuf_set_imap_zero]
  · have him2 : 1 ≤ (init_geometry S).imap_size := one_le_imap S (by omega)
    rw [List.countP_congr (q := fun j => decide (j ≤ 1))
      (fun j _ => by rw [him, testBuf_set_imap_zero]; simp [Nat.lt_succ_iff])]
    have h1 : (1 : Nat) < 8 * ((init_geometry S).imap_size * HUST_BLOCKSIZE) := by
      rw [hB]
      omega
    exact countP_range_le _ _ h1

/-- Witness for C3 at `S = 409600`: the minimum-size premise holds
(`11 ≤ 100`) and the bitmap invariant follows. -/
theorem C3_bitmap_invariant_witness :
    ((init_geometry 409600).sb.data_block_number + 1 ≤ (init_geometry 409600).sb.blocks_count) ∧
    ((init_disk 409600).1 = 0 ∧
     (∀ j < 8 * ((init_geometry 409600).bmap_size * HUST_BLOCKSIZE),
       testBuf (init_disk 409600).2.bmap j
         = decide (j ≤ (init_geometry 409600).sb.data_block_number)) ∧
     (List.range (8 * ((init_geometry 409600).bmap_size * HUST_BLOCKSIZE))).countP
         (fun j => testBuf (init_disk 409600).2.bmap j)
       = (init_geometry 409600).sb.data_block_number + 1 ∧
     (∀ j < 8 * ((init_geometry 409600).imap_size * HUST_BLOCKSIZE),
       testBuf (init_disk 409600).2.imap j = decide (j < 2)) ∧
     (List.range (8 * ((init_geometry 409600).imap_size * HUST_BLOCKSIZE))).countP
         (fun j => testBuf (init_disk 409600).2.imap j)
       = 2) :=
  ⟨by decide, C3_bitmap_invariant 409600 (by decide)⟩

/-! ## Write-trace lemmas -/

lemma wwrite_envOK (req : Nat) (d : WData) (s : WState) :
    wwrite envOK req d s
      = (req, ⟨s.pos + req, s.calls + 1, s.trace ++ [⟨s.pos, req, req, d⟩]⟩) := by
  simp [wwrite, envOK]

lemma write_dummy_envOK (s : WState) :
    write_dummy envOK s
      = (0, ⟨s.pos + HUST_BLOCKSIZE, s.calls + 1,
          s.trace ++ [⟨s.pos, HUST_BLOCKSIZE, HUST_BLOCKSIZE, WData.zeros⟩]⟩) := by
  simp [write_dummy, wwrite_envOK]

lemma write_sb_envOK (sb : HUST_fs_super_block) (s : WState) :
    write_sb envOK sb s
      = (0, ⟨s.pos + HUST_BLOCKSIZE, s.calls + 1,
          s.trace ++ [⟨s.pos, HUST_BLOCKSIZE, HUST_BLOCKSIZE, WData.sbData sb⟩]⟩) := by
  simp [write_sb, wwrite_envOK]

lemma write_bmap_envOK (bm : Nat) (s : WState) :
    write_bmap envOK bm s
      = (0, ⟨s.pos + bm * HUST_BLOCKSIZE, s.calls + 1,
          s.trace ++ [⟨s.pos, bm * HUST_BLOCKSIZE, bm * HUST_BLOCKSIZE, WData.bmapData⟩]⟩) := by
  simp [write_bmap, wwrite_envOK]

lemma write_imap_envOK (im : Nat) (s : WState) :
    write_imap envOK im s
      = (0, ⟨s.pos + im * HUST_BLOCKSIZE, s.calls + 1,
          s.trace ++ [⟨s.pos, im * HUST_BLOCKSIZE, im * HUST_BLOCKSIZE, WData.imapData⟩]⟩) := by
  simp [write_imap, wwrite_envOK]

lemma write_itable_envOK (geo : Geometry) (uid gid : Nat) (now : Int) (flen : Nat)
    (junkR junkF : Nat → Nat) (s : WState) :
    write_itable envOK geo uid gid now flen junkR junkF s
      = (0, ⟨geo.sb.data_block_number * HUST_BLOCKSIZE + (flen + 8) + (flen + 8) + (flen + 8),
          s.calls + 5,
          s.trace ++
            [⟨s.pos, HUST_INODE_SIZE, HUST_INODE_SIZE,
               WData.inodeData (root_dir_inode geo.sb.data_block_number uid gid now junkR)⟩,
             ⟨s.pos + HUST_INODE_SIZE, HUST_INODE_SIZE, HUST_INODE_SIZE,
               WData.inodeData (onefile_inode uid gid now junkF)⟩,
             ⟨geo.sb.data_block_number * HUST_BLOCKSIZE, flen + 8, flen + 8,
               WData.dirData ⟨".", HUST_ROOT_INODE_NUM⟩⟩,
             ⟨geo.sb.data_block_number * HUST_BLOCKSIZE + (flen + 8), flen + 8, flen + 8,
               WData.dirData ⟨"..", HUST_ROOT_INODE_NUM⟩⟩,
             ⟨geo.sb.data_block_number * HUST_BLOCKSIZE + (flen + 8) + (flen + 8), flen + 8,
               flen + 8, WData.dirData ⟨"file", 1⟩⟩]⟩) := by
  simp [write_itable, wwrite_envOK]

/-- C7: on a fault-free run the writes happen in exactly this order and at
these positions: one zero-filled block at block 0; the superblock (one full
block) at block 1; the block bitmap immediately following (block 2); the
inode bitmap immediately following the block bitmap; the two inode records
sequentially from the inode-table block offset; and after an explicit seek
to `data_block_number * HUST_BLOCKSIZE` the three directory records. -/
theorem C7_write_order (S uid gid : Nat) (now : Int) (flen : Nat) (junkR junkF : Nat → Nat) :
    (mainRun envOK S uid gid now flen junkR junkF).2.trace
      = [⟨0, HUST_BLOCKSIZE, HUST_BLOCKSIZE, WData.zeros⟩,
         ⟨1 * HUST_BLOCKSIZE, HUST_BLOCKSIZE, HUST_BLOCKSIZE,
           WData.sbData (init_geometry S).sb⟩,
         ⟨2 * HUST_BLOCKSIZE, (init_geometry S).bmap_size * HUST_BLOCKSIZE,
           (init_geometry S).bmap_size * HUST_BLOCKSIZE, WData.bmapData⟩,
         ⟨2 * HUST_BLOCKSIZE + (init_geometry S).bmap_size * HUST_BLOCKSIZE,
           (init_geometry S).imap_size * HUST_BLOCKSIZE,
           (init_geometry S).imap_size * HUST_BLOCKSIZE, WData.imapData⟩,
         ⟨(init_geometry S).sb.inode_table_block * HUST_BLOCKSIZE,
           HUST_INODE_SIZE, HUST_INODE_SIZE,
           WData.inodeData (root_dir_inode (init_geometry S).sb.data_block_number
             uid gid now junkR)⟩,
         ⟨(init_geometry S).sb.inode_table_block * HUST_BLOCKSIZE + HUST_INODE_SIZE,
           HUST_INODE_SIZE, HUST_INODE_SIZE,
           WData.inodeData (onefile_inode uid gid now junkF)⟩,
         ⟨(init_geometry S).sb.data_block_number * HUST_BLOCKSIZE, flen + 8, flen + 8,
           WData.dirData ⟨".", HUST_ROOT_INODE_NUM⟩⟩,
         ⟨(init_geometry S).sb.data_block_number * HUST_BLOCKSIZE + (flen + 8),
           flen + 8, flen + 8, WData.dirData ⟨"..", HUST_ROOT_INODE_NUM⟩⟩,
         ⟨(init_geometry S).sb.data_block_number * HUST_BLOCKSIZE + 2 * (flen + 8),
           flen + 8, flen + 8, WData.dirData ⟨"file", 1⟩⟩] := by
  simp only [mainRun, init_disk_geo, write_dummy_envOK, write_sb_envOK, write_bmap_envOK,
    write_imap_envOK, write_itable_envOK, List.nil_append, List.append_assoc,
    List.cons_append, List.singleton_append]
  have hit := geo_itable_block S
  have hd := geo_dbn S
  simp only [List.cons.injEq, WEvent.mk.injEq, and_true, true_and, RESERVE_BLOCKS,
    HUST_BLOCKSIZE, HUST_INODE_SIZE] at hit hd ⊢
  omega

/-- C8: a fault-free run writes exactly two inode records, in table order:
first the root directory inode (mode `S_IFDIR`, inode number
`HUST_ROOT_INODE_NUM`, block count 1, `block[0] = data_block_number`,
3 children, link count 2, the formatting process's uid/gid, all three
timestamps the format time), then the initial file inode (mode `S_IFREG`,
inode number 1, block count 0, file size 0, link count 1, same uid/gid and
timestamps). -/
theorem C8_inode_records (S uid gid : Nat) (now : Int) (flen : Nat) (junkR junkF : Nat → Nat) :
    (mainRun envOK S uid gid now flen junkR junkF).2.trace.filter
        (fun ev => match ev.data with | WData.inodeData _ => true | _ => false)
      = [⟨(init_geometry S).sb.inode_table_block * HUST_BLOCKSIZE, HUST_INODE_SIZE,
           HUST_INODE_SIZE,
           WData.inodeData (root_dir_inode (init_geometry S).sb.data_block_number
             uid gid now junkR)⟩,
         ⟨(init_geometry S).sb.inode_table_block * HUST_BLOCKSIZE + HUST_INODE_SIZE,
           HUST_INODE_SIZE, HUST_INODE_SIZE,
           WData.inodeData (onefile_inode uid gid now junkF)⟩] ∧
    (root_dir_inode (init_geometry S).sb.data_block_number uid gid now junkR).mode = S_IFDIR ∧
    (root_dir_inode (init_geometry S).sb.data_block_number uid gid now junkR).inode_no
      = HUST_ROOT_INODE_NUM ∧
    (root_dir_inode (init_geometry S).sb.data_block_number uid gid now junkR).blocks = 1 ∧
    (root_dir_inode (init_geometry S).sb.data_block_number uid gid now junkR).block 0
      = (init_geometry S).sb.data_block_number ∧
    (root_dir_inode (init_geometry S).sb.data_block_number uid gid now junkR).size_or_children
      = 3 ∧
    (root_dir_inode (init_geometry S).sb.data_block_number uid gid now junkR).i_nlink = 2 ∧
    (root_dir_inode (init_geometry S).sb.data_block_number uid gid now junkR).i_uid = uid ∧
    (root_dir_inode (init_geometry S).sb.data_block_number uid gid now junkR).i_gid = gid ∧
    (root_dir_inode (init_geometry S).sb.data_block_number uid gid now junkR).i_atime = now ∧
    (root_dir_inode (init_geometry S).sb.data_block_number uid gid now junkR).i_mtime = now ∧
    (root_dir_inode (init_geometry S).sb.data_block_number uid gid now junkR).i_ctime = now ∧
    (onefile_inode uid gid now junkF).mode = S_IFREG ∧
    (onefile_inode uid gid now junkF).inode_no = 1 ∧
    (onefile_inode uid gid now junkF).blocks = 0 ∧
    (onefile_inode uid gid now junkF).size_or_children = 0 ∧
    (onefile_inode uid gid now junkF).i_nlink = 1 ∧
    (onefile_inode uid gid now junkF).i_uid = uid ∧
    (onefile_inode uid gid now junkF).i_gid = gid ∧
    (onefile_inode uid gid now junkF).i_atime = now ∧
    (onefile_inode uid gid now junkF).i_mtime = now ∧
    (onefile_inode uid gid now junkF).i_ctime = now := by
  refine ⟨?_, rfl, rfl, rfl, rfl, rfl, rfl, rfl, rfl, rfl, rfl, rfl, rfl, rfl, rfl, rfl,
    rfl, rfl, rfl, rfl, rfl, rfl⟩
  simp only [mainRun, init_disk_geo, write_dummy_envOK, write_sb_envOK, write_bmap_envOK,
    write_imap_envOK, write_itable_envOK, List.nil_append, List.append_assoc,
    List.cons_append, List.singleton_append]
  simp only [List.filter]
  simp only [List.cons.injEq, WEvent.mk.injEq, and_true, true_and, RESERVE_BLOCKS,
    HUST_BLOCKSIZE, HUST_INODE_SIZE]
  have hit := geo_itable_block S
  simp only [RESERVE_BLOCKS, HUST_BLOCKSIZE] at hit
  omega

/-- C9: on a fault-free run (with a non-empty inode table region, and with
directory records small enough that three of them fit in one block — true
of the real `HUST_FILENAME_MAX_LEN`), the root directory's data block
receives exactly three directory records, packed contiguously from
`data_block_number * HUST_BLOCKSIZE`, in the order `"."` (root inode
number), `".."` (root inode number), `"file"` (inode 1); they are the last
writes of the run, and no write of the run extends past the end of the
third record, so the remaining bytes of that block are never written. -/
theorem C9_root_dir_block (S uid gid : Nat) (now : Int) (flen : Nat) (junkR junkF : Nat → Nat)
    (h1 : 1 ≤ (init_geometry S).inode_table_size)
    (h2 : 3 * (flen + 8) ≤ HUST_BLOCKSIZE) :
    (mainRun envOK S uid gid now flen junkR junkF).2.trace.drop 6
      = [⟨(init_geometry S).sb.data_block_number * HUST_BLOCKSIZE, flen + 8, flen + 8,
           WData.dirData ⟨".", HUST_ROOT_INODE_NUM⟩⟩,
         ⟨(init_geometry S).sb.data_block_number * HUST_BLOCKSIZE + (flen + 8),
           flen + 8, flen + 8, WData.dirData ⟨"..", HUST_ROOT_INODE_NUM⟩⟩,
         ⟨(init_geometry S).sb.data_block_number * HUST_BLOCKSIZE + 2 * (flen + 8),
           flen + 8, flen + 8, WData.dirData ⟨"file", 1⟩⟩] ∧
    (∀ ev ∈ (mainRun envOK S uid gid now flen junkR junkF).2.trace,
      ev.off + ev.req
        ≤ (init_geometry S).sb.data_block_number * HUST_BLOCKSIZE + 3 * (flen + 8)) ∧
    (init_geometry S).sb.data_block_number * HUST_BLOCKSIZE + 3 * (flen + 8)
      ≤ ((init_geometry S).sb.data_block_number + 1) * HUST_BLOCKSIZE := by
  have hit := geo_itable_block S
  have hd := geo_dbn S
  simp only [mainRun, init_disk_geo, write_dummy_envOK, write_sb_envOK, write_bmap_envOK,
    write_imap_envOK, write_itable_envOK, List.nil_append, List.append_assoc,
    List.cons_append, List.singleton_append]
  simp only [List.drop_succ_cons, List.drop_zero, List.forall_mem_cons, List.not_mem_nil,
    List.forall_mem_ne, List.mem_singleton, forall_eq, List.cons.injEq, WEvent.mk.injEq,
    and_true, true_and, RESERVE_BLOCKS, HUST_BLOCKSIZE, HUST_INODE_SIZE]
  simp only [RESERVE_BLOCKS, HUST_BLOCKSIZE, HUST_INODE_SIZE] at hit hd h2
  omega

/-- Witness for C9 at `S = 409600`, `flen = 256`: both premises hold
(`1 ≤ 6` and `792 ≤ 4096`) and the three directory records land packed at
the root data block. -/
theorem C9_root_dir_block_witness :
    (1 ≤ (init_geometry 409600).inode_table_size) ∧ (3 * (256 + 8) ≤ HUST_BLOCKSIZE) ∧
    (mainRun envOK 409600 0 0 0 256 (fun _ => 0) (fun _ => 0)).2.trace.drop 6
      = [⟨(init_geometry 409600).sb.data_block_number * HUST_BLOCKSIZE, 256 + 8, 256 + 8,
           WData.dirData ⟨".", HUST_ROOT_INODE_NUM⟩⟩,
         ⟨(init_geometry 409600).sb.data_block_number * HUST_BLOCKSIZE + (256 + 8),
           256 + 8, 256 + 8, WData.dirData ⟨"..", HUST_ROOT_INODE_NUM⟩⟩,
         ⟨(init_geometry 409600).sb.data_block_number * HUST_BLOCKSIZE + 2 * (256 + 8),
           256 + 8, 256 + 8, WData.dirData ⟨"file", 1⟩⟩] :=
  ⟨by decide, by decide,
    (C9_root_dir_block 409600 0 0 0 256 (fun _ => 0) (fun _ => 0) (by decide) (by decide)).1⟩

/-! ## Lemmas about runs with failing writes, for C6 -/

lemma write_dummy_snd (env : WEnv) (s : WState) :
    (write_dummy env s).2
      = ⟨s.pos + min (env s.calls HUST_BLOCKSIZE) HUST_BLOCKSIZE, s.calls + 1,
          s.trace ++ [⟨s.pos, HUST_BLOCKSIZE, min (env s.calls HUST_BLOCKSIZE) HUST_BLOCKSIZE,
            WData.zeros⟩]⟩ := rfl

lemma write_sb_snd (env : WEnv) (sb : HUST_fs_super_block) (s : WState) :
    (write_sb env sb s).2
      = ⟨s.pos + min (env s.calls HUST_BLOCKSIZE) HUST_BLOCKSIZE, s.calls + 1,
          s.trace ++ [⟨s.pos, HUST_BLOCKSIZE, min (env s.calls HUST_BLOCKSIZE) HUST_BLOCKSIZE,
            WData.sbData sb⟩]⟩ := rfl

lemma write_bmap_snd (env : WEnv) (bm : Nat) (s : WState) :
    (write_bmap env bm s).2
      = ⟨s.pos + min (env s.calls (bm * HUST_BLOCKSIZE)) (bm * HUST_BLOCKSIZE), s.calls + 1,
          s.trace ++ [⟨s.pos, bm * HUST_BLOCKSIZE,
            min (env s.calls (bm * HUST_BLOCKSIZE)) (bm * HUST_BLOCKSIZE),
            WData.bmapData⟩]⟩ := rfl

lemma write_imap_snd (env : WEnv) (im : Nat) (s : WState) :
    (write_imap env im s).2
      = ⟨s.pos + min (env s.calls (im * HUST_BLOCKSIZE)) (im * HUST_BLOCKSIZE), s.calls + 1,
          s.trace ++ [⟨s.pos, im * HUST_BLOCKSIZE,
            min (env s.calls (im * HUST_BLOCKSIZE)) (im * HUST_BLOCKSIZE),
            WData.imapData⟩]⟩ := rfl

/-- Whatever the device does, `write_itable` leaves the previously issued
writes in place and issues at least one more (the root-inode write is always
issued). -/
lemma write_itable_trace_ext (env : WEnv) (geo : Geometry) (uid gid : Nat) (now : Int)
    (flen : Nat) (junkR junkF : Nat → Nat) (s : WState) :
    (write_itable env geo uid gid now flen junkR junkF s).2.trace.take s.trace.length
      = s.trace ∧
    s.trace.length + 1 ≤ (write_itable env geo uid gid now flen junkR junkF s).2.trace.length := by
  unfold write_itable
  dsimp only
  split
  · constructor
    · simp only [wwrite, List.append_assoc, List.singleton_append]
      exact List.take_left' rfl
    · simp [wwrite]
  · split
    · constructor
      · simp only [wwrite, List.append_assoc, List.singleton_append]
        exact List.take_left' rfl
      · simp [wwrite]
    · constructor
      · simp only [wwrite, List.append_assoc, List.singleton_append]
        exact List.take_left' rfl
      · simp [wwrite]


/-- Specialization of `write_itable_trace_ext` to a four-event history: the
four previously issued writes stay, and a fifth write is issued. -/
lemma take4_of_itable (env : WEnv) (geo : Geometry) (uid gid : Nat) (now : Int)
    (flen : Nat) (junkR junkF : Nat → Nat) (s : WState) (hlen : s.trace.length = 4) :
    (write_itable env geo uid gid now flen junkR junkF s).2.trace.take 4 = s.trace ∧
    5 ≤ (write_itable env geo uid gid now flen junkR junkF s).2.trace.length := by
  have h := write_itable_trace_ext env geo uid gid now flen junkR junkF s
  rw [hlen] at h
  exact ⟨h.1, by omega⟩

/-- C6 amended: a failing write does NOT abort the run.  Each helper aborts
itself on its first CHECKED failing write (in particular `write_itable`
stops after a failed root-inode write), but `main` ignores every helper's
return value: whatever the device does, the dummy-block, superblock,
block-bitmap and inode-bitmap writes are all issued (and at least one
inode-table write after them), and the process exit status is 1 regardless,
so no error is propagated to the caller. -/
theorem C6_no_abort_across_stages :
    (∀ (env : WEnv) (S uid gid : Nat) (now : Int) (flen : Nat) (junkR junkF : Nat → Nat),
      (mainRun env S uid gid now flen junkR junkF).1 = 1 ∧
      ((mainRun env S uid gid now flen junkR junkF).2.trace.map (fun ev => ev.data)).take 4
        = [WData.zeros, WData.sbData (init_geometry S).sb, WData.bmapData, WData.imapData] ∧
      5 ≤ (mainRun env S uid gid now flen junkR junkF).2.trace.length) ∧
    (∀ (env : WEnv) (geo : Geometry) (uid gid : Nat) (now : Int) (flen : Nat)
        (junkR junkF : Nat → Nat) (s : WState),
      min (env s.calls HUST_INODE_SIZE) HUST_INODE_SIZE ≠ HUST_INODE_SIZE →
      (write_itable env geo uid gid now flen junkR junkF s).1 = -1 ∧
      (write_itable env geo uid gid now flen junkR junkF s).2.trace
        = s.trace ++ [⟨s.pos, HUST_INODE_SIZE,
            min (env s.calls HUST_INODE_SIZE) HUST_INODE_SIZE,
            WData.inodeData (root_dir_inode geo.sb.data_block_number uid gid now junkR)⟩]) := by
  constructor
  · intro env S uid gid now flen junkR junkF
    have hlen : ((write_imap env (init_disk S).2.geo.imap_size
        (write_bmap env (init_disk S).2.geo.bmap_size
          (write_sb env (init_disk S).2.geo.sb
            (write_dummy env ⟨0, 0, []⟩).2).2).2).2).trace.length = 4 := by
      simp [write_dummy_snd, write_sb_snd, write_bmap_snd, write_imap_snd]
    have h4 := take4_of_itable env ((init_disk S).2.geo) uid gid now flen junkR junkF
      ((write_imap env (init_disk S).2.geo.imap_size
        (write_bmap env (init_disk S).2.geo.bmap_size
          (write_sb env (init_disk S).2.geo.sb
            (write_dummy env ⟨0, 0, []⟩).2).2).2).2) hlen
    refine ⟨rfl, ?_, ?_⟩
    · show ((write_itable env (init_disk S).2.geo uid gid now flen junkR junkF
        ((write_imap env (init_disk S).2.geo.imap_size
          (write_bmap env (init_disk S).2.geo.bmap_size
            (write_sb env (init_disk S).2.geo.sb
              (write_dummy env ⟨0, 0, []⟩).2).2).2).2)).2.trace.map
                (fun ev => ev.data)).take 4
        = [WData.zeros, WData.sbData (init_geometry S).sb, WData.bmapData, WData.imapData]
      rw [← List.map_take, h4.1]
      simp [write_dummy_snd, write_sb_snd, write_bmap_snd, write_imap_snd, init_disk_geo]
    · show 5 ≤ (write_itable env (init_disk S).2.geo uid gid now flen junkR junkF
        ((write_imap env (init_disk S).2.geo.imap_size
          (write_bmap env (init_disk S).2.geo.bmap_size
            (write_sb env (init_disk S).2.geo.sb
              (write_dummy env ⟨0, 0, []⟩).2).2).2).2)).2.trace.length
      exact h4.2
  · intro env geo uid gid now flen junkR junkF s h
    unfold write_itable
    dsimp only
    split
    · exact ⟨rfl, by simp [wwrite]⟩
    · rename_i hcond
      exact absurd (by simpa [wwrite] using hcond) h

/-- Witness for C6 with the always-failing device (every write accepts 0
bytes) at `S = 409600`: the four leading writes are still issued, the exit
status is 1, and `write_itable` aborts internally after its failed
root-inode write. -/
theorem C6_no_abort_across_stages_witness :
    ((mainRun (fun _ _ => 0) 409600 0 0 0 256 (fun _ => 0) (fun _ => 0)).1 = 1 ∧
     ((mainRun (fun _ _ => 0) 409600 0 0 0 256 (fun _ => 0) (fun _ => 0)).2.trace.map
         (fun ev => ev.data)).take 4
       = [WData.zeros, WData.sbData (init_geometry 409600).sb, WData.bmapData,
          WData.imapData] ∧
     5 ≤ (mainRun (fun _ _ => 0) 409600 0 0 0 256 (fun _ => 0) (fun _ => 0)).2.trace.length) ∧
    (min ((fun (_ _ : Nat) => (0 : Nat)) 0 HUST_INODE_SIZE) HUST_INODE_SIZE
        ≠ HUST_INODE_SIZE ∧
     (write_itable (fun _ _ => 0) (init_geometry 409600) 0 0 0 256
        (fun _ => 0) (fun _ => 0) ⟨0, 0, []⟩).1 = -1) :=
  ⟨C6_no_abort_across_stages.1 (fun _ _ => 0) 409600 0 0 0 256 (fun _ => 0) (fun _ => 0),
   by decide,
   (C6_no_abort_across_stages.2 (fun _ _ => 0) (init_geometry 409600) 0 0 0 256
      (fun _ => 0) (fun _ => 0) ⟨0, 0, []⟩ (by decide)).1⟩

/-- Counterexample to C6 as stated: with a device that fails the very first
write call (0 of 4096 bytes written) and accepts everything afterwards, the
run still issues all 9 writes — 8 of them AFTER the failed one — and exits
with status 1, so the first error neither stops the write sequence nor is
propagated. -/
theorem C6_cex :
    (mainRun envFail0 409600 0 0 0 256 (fun _ => 0) (fun _ => 0)).2.trace.length = 9 ∧
    ((mainRun envFail0 409600 0 0 0 256 (fun _ => 0) (fun _ => 0)).2.trace.map
        (fun ev => ev.written)).take 2 = [0, HUST_BLOCKSIZE] ∧
    (mainRun envFail0 409600 0 0 0 256 (fun _ => 0) (fun _ => 0)).1 = 1 := by
  refine ⟨rfl, rfl, rfl⟩
